import Mathlib

/-!
Verification development for the sntp repository (single source file, sntp.go).

The program is a one-shot SNTP client.  The embedding below models:
  * the 48-byte NTP packet structure and its big-endian (de)serialization
    via binary.Write / binary.Read (Go encoding/binary, struct order);
  * printTime (sntp.go lines 121-126): conversion of an NTP timestamp
    (32-bit seconds since 1900, 32-bit binary fraction) to Unix epoch
    seconds and nanoseconds, with the seconds routed through IEEE-754
    binary64 arithmetic and the nanoseconds computed in int64;
  * the duration outputs of main (lines 115-116);
  * the exchange inlined in main (lines 67-119), as a function from the
    channel's behaviour and the local clock instants to the run's
    observable outcome: either a log.Fatal abort reporting nothing, or the
    printed timestamps and durations;
  * the local-time-to-NTP-timestamp conversion, which has no counterpart
    anywhere in the source and is therefore modelled from the spec.

Machine integers are modelled as Nat/Int with explicit reduction modulo
powers of two where overflow or wrap-around matters.
-/

namespace Sntp

/-- NTP-to-Unix epoch offset, sntp.go line 12: seconds from 1900-01-01 to 1970-01-01. -/
def ntpEpochOffset : ℤ := 2208988800

/-- The NTP packet structure, sntp.go lines 44-60.  Byte fields (uint8) and
32-bit fields (uint32) are Nat, signed byte fields (int8) are Int; the wire
codec reduces them to their machine ranges exactly as Go's fixed-size types do. -/
structure Packet where
  Settings       : ℕ
  Stratum        : ℕ
  Poll           : ℤ
  Precision      : ℤ
  RootDelay      : ℕ
  RootDispersion : ℕ
  ReferenceID    : ℕ
  RefTimeSec     : ℕ
  RefTimeFrac    : ℕ
  OrigTimeSec    : ℕ
  OrigTimeFrac   : ℕ
  RxTimeSec      : ℕ
  RxTimeFrac     : ℕ
  TxTimeSec      : ℕ
  TxTimeFrac     : ℕ
  deriving DecidableEq, Repr

/-- Big-endian serialization of a uint32 value: the four bytes of the value's
low 32 bits, most significant first (Go binary.BigEndian.PutUint32). -/
def u32be (n : ℕ) : List ℕ :=
  [n / 2 ^ 24 % 256, n / 2 ^ 16 % 256, n / 2 ^ 8 % 256, n % 256]

/-- The single byte holding an int8 value: two's complement, i.e. the value
modulo 256 (Go writes the int8's byte as-is). -/
def int8Byte (z : ℤ) : ℕ := (z % 256).toNat

/-- Reading an int8 back from its byte: values 128..255 denote negatives. -/
def byteToInt8 (b : ℕ) : ℤ := if b < 128 then (b : ℤ) else (b : ℤ) - 256

/-- binary.Write of a packet in big-endian byte order (sntp.go line 91):
each struct field in declaration order, fixed-size, big-endian. -/
def encodePacket (p : Packet) : List ℕ :=
  [p.Settings % 256, p.Stratum % 256, int8Byte p.Poll, int8Byte p.Precision]
    ++ u32be p.RootDelay ++ u32be p.RootDispersion ++ u32be p.ReferenceID
    ++ u32be p.RefTimeSec ++ u32be p.RefTimeFrac
    ++ u32be p.OrigTimeSec ++ u32be p.OrigTimeFrac
    ++ u32be p.RxTimeSec ++ u32be p.RxTimeFrac
    ++ u32be p.TxTimeSec ++ u32be p.TxTimeFrac

/-- The request packet built by main (sntp.go line 86): only the settings
byte is populated, every other field is the zero value. -/
def requestPacket (settings : ℕ) : Packet :=
  ⟨settings, 0, 0, 0, 0, 0, 0, 0, 0, 0, 0, 0, 0, 0, 0⟩

/-- Encoding a request: serialize the packet whose settings byte is the given
value and whose other fields are zero. -/
def encodeRequest (settings : ℕ) : List ℕ :=
  encodePacket (requestPacket settings)

/-- Decode errors: a buffer too short to populate every field of the packet. -/
inductive DecodeError where
  | MalformedPacket
  deriving DecidableEq, Repr

/-- Big-endian uint32 read at offset i of a buffer. -/
def readU32 (buf : List ℕ) (i : ℕ) : ℕ :=
  buf.getD i 0 * 2 ^ 24 + buf.getD (i + 1) 0 * 2 ^ 16
    + buf.getD (i + 2) 0 * 2 ^ 8 + buf.getD (i + 3) 0

/-- binary.Read of a packet in big-endian byte order (sntp.go line 97): needs
48 bytes; with fewer it fails without producing any packet, otherwise it
fills every field from its fixed offset. -/
def decodePacket (buf : List ℕ) : Except DecodeError Packet :=
  if buf.length < 48 then .error .MalformedPacket
  else .ok
    ⟨buf.getD 0 0, buf.getD 1 0, byteToInt8 (buf.getD 2 0), byteToInt8 (buf.getD 3 0),
     readU32 buf 4, readU32 buf 8, readU32 buf 12,
     readU32 buf 16, readU32 buf 20, readU32 buf 24, readU32 buf 28,
     readU32 buf 32, readU32 buf 36, readU32 buf 40, readU32 buf 44⟩

/-- Round-to-nearest, ties-to-even, of the quotient a / d for d > 0
(the IEEE-754 default rounding of a scaled integer). -/
def rne (a d : ℕ) : ℕ :=
  if 2 * (a % d) < d then a / d
  else if d < 2 * (a % d) then a / d + 1
  else if a / d % 2 = 0 then a / d else a / d + 1

/-- Nearest IEEE-754 binary64 value of a natural number (round-to-nearest-even,
exponent range ignored: every magnitude in this program is far below overflow).
Integers up to 2 ^ 53 are exactly representable; above that the value is
rounded to 53 significant bits. -/
def f64ofNat (a : ℕ) : ℕ :=
  if a ≤ 2 ^ 53 then a
  else rne a (2 ^ (a.log2 - 52)) * 2 ^ (a.log2 - 52)

/-- Nearest IEEE-754 binary64 value of an integer.  Every float64 value
arising in printTime is integral (the inputs are integers and each exact
result is an integer of magnitude below 2 ^ 34), so the program's float64
arithmetic is fully captured by correctly rounding integers. -/
def f64ofInt (n : ℤ) : ℤ :=
  if 0 ≤ n then (f64ofNat n.toNat : ℤ) else -(f64ofNat n.natAbs : ℤ)

/-- Two's-complement wrap-around of an integer into the int64 range. -/
def wrapInt64 (n : ℤ) : ℤ := (n + 2 ^ 63) % 2 ^ 64 - 2 ^ 63

/-- The seconds computed by printTime (sntp.go lines 122 and 124):
secs := float64(s) - ntpEpochOffset as binary64 arithmetic, then the int64
conversion of secs.  Both conversions and the subtraction are modelled by
correct rounding (f64ofInt); the final int64 truncation of an integral
float64 value is the identity, so the result is the rounded difference. -/
def printTimeSecs (s : ℕ) : ℤ :=
  f64ofInt (f64ofInt (s : ℤ) - f64ofInt ntpEpochOffset)

/-- The nanoseconds computed by printTime (sntp.go line 123):
(int64(f) * 1e9) >> 32, with int64 multiplication wrapping at 2 ^ 64 and
the arithmetic right shift being floor division by 2 ^ 32.  The uint32 to
int64 conversion of f is value-preserving. -/
def printTimeNanos (f : ℕ) : ℤ :=
  Int.fdiv (wrapInt64 ((f : ℤ) * 1000000000)) (2 ^ 32)

/-- printTime (sntp.go lines 121-126): the Unix epoch seconds and the
nanoseconds passed to time.Unix for an NTP timestamp (s, f). -/
def printTime (s f : ℕ) : ℤ × ℤ :=
  (printTimeSecs s, printTimeNanos f)

/-- Rationals exactly representable as IEEE-754 binary64 values: a 53-bit
signed significand scaled by a power of two (exponent range ignored, as all
magnitudes in this program are moderate). -/
def F64Rep (q : ℚ) : Prop :=
  ∃ m : ℤ, ∃ e : ℤ, |m| ≤ 2 ^ 53 ∧ q = (m : ℚ) * 2 ^ e

/-- r is a correct IEEE-754 rounding of the exact value x: r is representable
and no representable value is closer to x. -/
def RoundsTo (x r : ℚ) : Prop :=
  F64Rep r ∧ ∀ r2 : ℚ, F64Rep r2 → |x - r| ≤ |x - r2|

/-- The two durations printed by main (sntp.go lines 115-116):
t2.Sub(t1) and t3.Sub(t4), as exact signed durations. -/
def mainReported (t1 t2 t3 t4 : ℚ) : ℚ × ℚ :=
  (t2 - t1, t3 - t4)

/-- The local time value printTime returns (via time.Unix), in seconds:
epoch seconds plus nanoseconds scaled down. -/
def localTimeQ (s f : ℕ) : ℚ :=
  ((printTime s f).1 : ℚ) + ((printTime s f).2 : ℚ) / 1000000000

/-- Behaviour of the datagram channel during one run of main: whether the
conn.SetDeadline call (sntp.go line 78) succeeds, whether the write of the
request succeeds, and the reply (arrival instant after the request, and
payload), if any ever comes. -/
structure Channel where
  deadlineOk : Bool
  sendOk     : Bool
  replyAt    : Option (ℚ × List ℕ)
  deriving DecidableEq

/-- The observable outcome of one run of main (sntp.go lines 67-119): either
the process aborts via log.Fatal reporting nothing, or it prints the four
decoded timestamps (origin, reference, receive, transmit) followed by the
two durations t2.Sub(t1) and t3.Sub(t4).  log.Fatal terminates the process,
so a fatal run yields no data at all, and nothing is ever returned. -/
inductive MainOutcome where
  | fatal : MainOutcome
  | report : ℤ × ℤ → ℤ × ℤ → ℤ × ℤ → ℤ × ℤ → ℚ → ℚ → MainOutcome
  deriving DecidableEq

/-- The deadline main applies (sntp.go line 78): hard-coded at 5 seconds via
conn.SetDeadline(time.Now().Add(5 * time.Second)); main takes no timeout
input from any caller. -/
def mainDeadlineSeconds : ℚ := 5

/-- One run of the exchange inlined in main (sntp.go lines 67-119), given the
channel's behaviour and the local clock instants t1 (line 90) and t4
(line 100).  SetDeadline failure (line 78), write failure (line 91) and read
failure (line 97: no datagram within the hard-coded 5-second deadline, or a
datagram too short for the 48-byte packet) each call log.Fatal, aborting with
no report.  Otherwise main prints the origin, reference, receive and transmit
timestamps (lines 110-113) and the durations t2.Sub(t1) and t3.Sub(t4)
(lines 115-116); no delay or offset is computed and nothing is returned. -/
def runMain (ch : Channel) (t1 t4 : ℚ) : MainOutcome :=
  if ch.deadlineOk then
    if ch.sendOk then
      match ch.replyAt with
      | none => .fatal
      | some (arrival, buf) =>
        if arrival ≤ mainDeadlineSeconds then
          match decodePacket buf with
          | .error _ => .fatal
          | .ok p =>
            .report (printTime p.OrigTimeSec p.OrigTimeFrac)
              (printTime p.RefTimeSec p.RefTimeFrac)
              (printTime p.RxTimeSec p.RxTimeFrac)
              (printTime p.TxTimeSec p.TxTimeFrac)
              (localTimeQ p.RxTimeSec p.RxTimeFrac - t1)
              (localTimeQ p.TxTimeSec p.TxTimeFrac - t4)
        else .fatal
    else .fatal
  else .fatal

/-- Modelled from the spec: the source has no local-time-to-NTP-timestamp
conversion (only the decoding direction, printTime, exists).  Spec section 3
defines an NtpTimestamp as a 32-bit unsigned count of seconds since 1900
concatenated with a 32-bit fraction equal to value / 2 ^ 32, so encoding adds
the epoch offset and keeps the low 32 bits of the seconds, and scales the
nanoseconds by 2 ^ 32 / 10 ^ 9. -/
def localTimeToTimestamp (es : ℤ) (ns : ℕ) : ℕ × ℕ :=
  ((es + 2208988800).toNat % 2 ^ 32, ns * 2 ^ 32 / 1000000000)

/-- Packets whose fields fit their machine types (uint8, int8, uint32). -/
def ValidPacket (p : Packet) : Prop :=
  p.Settings < 256 ∧ p.Stratum < 256 ∧ -128 ≤ p.Poll ∧ p.Poll < 128 ∧
  -128 ≤ p.Precision ∧ p.Precision < 128 ∧ p.RootDelay < 2 ^ 32 ∧
  p.RootDispersion < 2 ^ 32 ∧ p.ReferenceID < 2 ^ 32 ∧ p.RefTimeSec < 2 ^ 32 ∧
  p.RefTimeFrac < 2 ^ 32 ∧ p.OrigTimeSec < 2 ^ 32 ∧ p.OrigTimeFrac < 2 ^ 32 ∧
  p.RxTimeSec < 2 ^ 32 ∧ p.RxTimeFrac < 2 ^ 32 ∧ p.TxTimeSec < 2 ^ 32 ∧
  p.TxTimeFrac < 2 ^ 32

/-- An IEEE-754 binary64 value of magnitude at most 2 ^ 53 that holds an
integer is exactly that integer: rounding it is the identity. -/
theorem f64ofInt_eq_self (n : ℤ) (h : n.natAbs ≤ 2 ^ 53) : f64ofInt n = n := by
  unfold f64ofInt f64ofNat
  split_ifs <;> omega

/-- For any uint32 value the float64 route of printTime produces exactly the
integer difference with the epoch offset. -/
theorem printTimeSecs_eq (s : ℕ) (h : s < 2 ^ 32) :
    printTimeSecs s = (s : ℤ) - 2208988800 := by
  unfold printTimeSecs ntpEpochOffset
  rw [f64ofInt_eq_self (s : ℤ) (by omega), f64ofInt_eq_self 2208988800 (by omega),
    f64ofInt_eq_self _ (by omega)]

/-- Values already inside the int64 range are unchanged by the wrap. -/
theorem wrapInt64_eq_self (n : ℤ) (h0 : 0 ≤ n) (h1 : n < 2 ^ 63) : wrapInt64 n = n := by
  unfold wrapInt64
  omega

/-- For any uint32 fraction the int64 route of printTime produces exactly the
floor of fraction * 10 ^ 9 / 2 ^ 32. -/
theorem printTimeNanos_eq (f : ℕ) (h : f < 2 ^ 32) :
    printTimeNanos f = ((f * 1000000000 / 2 ^ 32 : ℕ) : ℤ) := by
  unfold printTimeNanos
  have h2 : (0 : ℤ) ≤ (f : ℤ) * 1000000000 := by positivity
  rw [wrapInt64_eq_self _ h2 (by omega), Int.fdiv_eq_tdiv h2 (by norm_num)]
  have h3 : ((f : ℤ) * 1000000000) = ((f * 1000000000 : ℕ) : ℤ) := by push_cast; ring
  have h4 : ((2 : ℤ) ^ 32) = ((2 ^ 32 : ℕ) : ℤ) := by norm_cast
  rw [h3, h4]
  exact (Int.ofNat_tdiv _ _).symm

/-- Decoding inverts encoding on any packet whose fields are in range. -/
theorem decode_encode (p : Packet) (h : ValidPacket p) :
    decodePacket (encodePacket p) = .ok p := by
  rcases p with ⟨f1, f2, f3, f4, f5, f6, f7, f8, f9, f10, f11, f12, f13, f14, f15⟩
  unfold ValidPacket at h
  dsimp only at h
  obtain ⟨h1, h2, h3, h4, h5, h6, h7, h8, h9, h10, h11, h12, h13, h14, h15, h16, h17⟩ := h
  simp only [encodePacket, u32be, int8Byte, List.cons_append, List.nil_append]
  simp only [decodePacket, List.length_cons, List.length_nil, readU32, byteToInt8,
    List.getD_cons_zero, List.getD_cons_succ]
  norm_num [Packet.mk.injEq]
  split_ifs <;> refine ⟨?_, ?_, ?_, ?_, ?_, ?_, ?_, ?_, ?_, ?_, ?_, ?_, ?_, ?_, ?_⟩ <;> omega

/-- An integer of magnitude at most 2 ^ 53 is exactly representable. -/
theorem F64Rep_intCast (n : ℤ) (h : |n| ≤ 2 ^ 53) : F64Rep (n : ℚ) :=
  ⟨n, 0, h, by norm_num⟩

/-- Correct rounding is the identity on representable values. -/
theorem roundsTo_eq_self (x r : ℚ) (hx : F64Rep x) (h : RoundsTo x r) : r = x := by
  have h2 := h.2 x hx
  have h3 : |x - r| = 0 := le_antisymm (by simpa using h2) (abs_nonneg _)
  have h4 := abs_eq_zero.mp h3
  linarith [sub_eq_zero.mp h4]

/-- Claim C1 counterexample: at T1=0, T2=1, T3=2, T4=4 the program's two
printed durations (sntp.go lines 115-116) are t2-t1 = 1 and t3-t4 = -2;
the program does not compute the round-trip delay 3 = (4-0)-(2-1) or the
clock offset -1/2 = ((1-0)+(2-4))/2: neither printed value equals either. -/
theorem main_prints_componentwise_durations_not_delay_offset :
    mainReported 0 1 2 4 = (1, -2) ∧
    mainReported 0 1 2 4 ≠ ((4 - 0 : ℚ) - (2 - 1), ((1 - 0 : ℚ) + (2 - 4)) / 2) ∧
    (mainReported 0 1 2 4).1 ≠ (4 - 0 : ℚ) - (2 - 1) ∧
    (mainReported 0 1 2 4).2 ≠ (4 - 0 : ℚ) - (2 - 1) ∧
    (mainReported 0 1 2 4).1 ≠ ((1 - 0 : ℚ) + (2 - 4)) / 2 ∧
    (mainReported 0 1 2 4).2 ≠ ((1 - 0 : ℚ) + (2 - 4)) / 2 := by
  refine ⟨by norm_num [mainReported], by norm_num [mainReported],
    by norm_num [mainReported], by norm_num [mainReported],
    by norm_num [mainReported], by norm_num [mainReported]⟩

/-- Claim C1 (amended): the program reports the two signed durations
T2 - T1 and T3 - T4; the standard round-trip delay (T4-T1)-(T3-T2) is their
difference and the clock offset ((T2-T1)+(T3-T4))/2 is their half-sum; at
T1=0, T2=1, T3=2, T4=4 the reported values are 1 and -2, which determine
delay 3 and offset -1/2. -/
theorem reported_durations_determine_delay_and_offset :
    (∀ t1 t2 t3 t4 : ℚ,
      (mainReported t1 t2 t3 t4).1 - (mainReported t1 t2 t3 t4).2
        = (t4 - t1) - (t3 - t2) ∧
      ((mainReported t1 t2 t3 t4).1 + (mainReported t1 t2 t3 t4).2) / 2
        = ((t2 - t1) + (t3 - t4)) / 2) ∧
    mainReported 0 1 2 4 = (1, -2) ∧
    (mainReported 0 1 2 4).1 - (mainReported 0 1 2 4).2 = 3 ∧
    ((mainReported 0 1 2 4).1 + (mainReported 0 1 2 4).2) / 2 = -(1 / 2) := by
  refine ⟨fun t1 t2 t3 t4 =>
      ⟨by simp only [mainReported]; ring, by simp only [mainReported]⟩,
    by norm_num [mainReported], by norm_num [mainReported],
    by norm_num [mainReported]⟩

/-- Claim C2: for every NTP timestamp, printTime returns epoch seconds equal
to seconds - 2208988800 (signed) and nanoseconds equal to
floor(fraction * 10 ^ 9 / 2 ^ 32); in particular (3913056000, 0) converts to
(1704067200, 0) and (3913056000, 0x80000000) to (1704067200, 500000000). -/
theorem printTime_conversion_formula :
    (∀ s f : ℕ, s < 2 ^ 32 → f < 2 ^ 32 →
      printTime s f = ((s : ℤ) - 2208988800, ((f * 1000000000 / 2 ^ 32 : ℕ) : ℤ))) ∧
    printTime 3913056000 0 = (1704067200, 0) ∧
    printTime 3913056000 2147483648 = (1704067200, 500000000) := by
  refine ⟨fun s f hs hf => ?_, by decide, by decide⟩
  unfold printTime
  rw [printTimeSecs_eq s hs, printTimeNanos_eq f hf]

/-- Claim C2 witness: the formula evaluated at the spec's concrete input. -/
theorem printTime_conversion_formula_witness :
    printTime 3913056000 2147483648
      = ((3913056000 : ℤ) - 2208988800,
         ((2147483648 * 1000000000 / 2 ^ 32 : ℕ) : ℤ)) :=
  printTime_conversion_formula.1 3913056000 2147483648 (by norm_num) (by norm_num)

/-- Claim C3: decoding the buffer produced by encoding a request with any
settings byte yields the packet whose settings byte is that value and whose
every other field is zero. -/
theorem decode_encode_settings_roundtrip :
    ∀ s : ℕ, s < 256 →
      decodePacket (encodeRequest s)
        = .ok ⟨s, 0, 0, 0, 0, 0, 0, 0, 0, 0, 0, 0, 0, 0, 0⟩ := by
  intro s hs
  have hv : ValidPacket (requestPacket s) := by
    unfold ValidPacket requestPacket
    exact ⟨hs, by norm_num⟩
  exact decode_encode (requestPacket s) hv

/-- Claim C3 witness: the round trip at the settings byte 0x1B that main uses. -/
theorem decode_encode_settings_roundtrip_witness :
    decodePacket (encodeRequest 27)
      = .ok ⟨27, 0, 0, 0, 0, 0, 0, 0, 0, 0, 0, 0, 0, 0, 0⟩ :=
  decode_encode_settings_roundtrip 27 (by norm_num)

/-- Claim C4: a buffer shorter than 48 bytes always decodes to the
MalformedPacket error and never to any packet, while any buffer of at least
48 bytes decodes to some packet with no semantic validation of field values. -/
theorem decode_short_buffer_malformed :
    (∀ buf : List ℕ, buf.length < 48 →
      decodePacket buf = .error .MalformedPacket) ∧
    (∀ buf : List ℕ, 48 ≤ buf.length → ∃ p : Packet, decodePacket buf = .ok p) := by
  constructor
  · intro buf h
    unfold decodePacket
    rw [if_pos h]
  · intro buf h
    unfold decodePacket
    rw [if_neg (by omega)]
    exact ⟨_, rfl⟩

/-- Claim C4 witness: the empty buffer fails, a 48-byte zero buffer decodes. -/
theorem decode_short_buffer_malformed_witness :
    decodePacket [] = .error .MalformedPacket ∧
    ∃ p : Packet, decodePacket (List.replicate 48 0) = .ok p :=
  ⟨decode_short_buffer_malformed.1 [] (by norm_num),
   decode_short_buffer_malformed.2 (List.replicate 48 0) (by norm_num)⟩

/-- Claim C5 counterexample: at a concrete successful run (reply carrying
receive time 2208988801 s and transmit time 2208988802 s since 1900, local
instants t1 = 0 and t4 = 4) the program reports exactly the two raw
durations 1 = T2 - T1 and -2 = T3 - T4 alongside the printed timestamps;
no ExchangeResult is returned, and neither reported value is the delay
3 = (T4-T1)-(T3-T2) or the offset -1/2 = ((T2-T1)+(T3-T4))/2. -/
theorem main_exchange_reports_raw_durations_not_result :
    runMain ⟨true, true, some (1,
        encodePacket ⟨27, 0, 0, 0, 0, 0, 0, 0, 0, 0, 0, 2208988801, 0,
          2208988802, 0⟩)⟩ 0 4
      = .report (-2208988800, 0) (-2208988800, 0) (1, 0) (2, 0) 1 (-2) ∧
    (1 : ℚ) ≠ (4 - 0) - (2 - 1) ∧ (-2 : ℚ) ≠ (4 - 0) - (2 - 1) ∧
    (1 : ℚ) ≠ ((1 - 0) + (2 - 4)) / 2 ∧ (-2 : ℚ) ≠ ((1 - 0) + (2 - 4)) / 2 := by
  have h1 : printTime 0 0 = (-2208988800, 0) := by decide
  have h2 : printTime 2208988801 0 = (1, 0) := by decide
  have h3 : printTime 2208988802 0 = (2, 0) := by decide
  have hd : decodePacket (encodePacket
        ⟨27, 0, 0, 0, 0, 0, 0, 0, 0, 0, 0, 2208988801, 0, 2208988802, 0⟩)
      = .ok ⟨27, 0, 0, 0, 0, 0, 0, 0, 0, 0, 0, 2208988801, 0, 2208988802, 0⟩ := rfl
  refine ⟨?_, by norm_num, by norm_num, by norm_num, by norm_num⟩
  unfold runMain mainDeadlineSeconds
  dsimp only
  rw [if_pos (show (1 : ℚ) ≤ 5 by norm_num), hd]
  dsimp only
  simp only [localTimeQ]
  rw [h1, h2, h3]
  norm_num

/-- Claim C5 (amended): every run of the exchange inlined in main either
aborts via log.Fatal producing no result at all, or completes fully,
reporting (by printing, not by returning: there is no ExchangeResult) the
four decoded timestamps and the two signed durations T2 - T1 and T3 - T4 of
a successfully decoded reply — never a partially-populated reply and never
substituted defaults; the delay of the claim's formula is recoverable as the
difference of the two reported durations, but main itself computes no delay
or offset. -/
theorem main_exchange_all_or_nothing :
    ∀ ch : Channel, ∀ t1 t4 : ℚ,
      runMain ch t1 t4 = .fatal ∨
      ∃ p : Packet,
        runMain ch t1 t4
          = .report (printTime p.OrigTimeSec p.OrigTimeFrac)
              (printTime p.RefTimeSec p.RefTimeFrac)
              (printTime p.RxTimeSec p.RxTimeFrac)
              (printTime p.TxTimeSec p.TxTimeFrac)
              (localTimeQ p.RxTimeSec p.RxTimeFrac - t1)
              (localTimeQ p.TxTimeSec p.TxTimeFrac - t4) ∧
        (localTimeQ p.RxTimeSec p.RxTimeFrac - t1)
            - (localTimeQ p.TxTimeSec p.TxTimeFrac - t4)
          = (t4 - t1) - (localTimeQ p.TxTimeSec p.TxTimeFrac
              - localTimeQ p.RxTimeSec p.RxTimeFrac) := by
  intro ch t1 t4
  unfold runMain
  repeat' split
  all_goals first
    | exact .inl rfl
    | exact .inr ⟨_, rfl, by ring⟩

/-- Claim C6: the fraction-to-nanoseconds conversion maps 0xFFFFFFFF to
exactly 999999999 and 0 to exactly 0, and for every uint32 fraction the
result lies in [0, 10 ^ 9). -/
theorem fraction_nanos_boundary_and_range :
    printTimeNanos 4294967295 = 999999999 ∧ printTimeNanos 0 = 0 ∧
    ∀ f : ℕ, f < 2 ^ 32 →
      0 ≤ printTimeNanos f ∧ printTimeNanos f < 1000000000 := by
  refine ⟨by decide, by decide, fun f hf => ?_⟩
  rw [printTimeNanos_eq f hf]
  constructor
  · exact_mod_cast Nat.zero_le _
  · have h : f * 1000000000 / 2 ^ 32 < 1000000000 :=
      Nat.div_lt_of_lt_mul (by omega)
    exact_mod_cast h

/-- Claim C6 witness: the range bound at a sample fraction. -/
theorem fraction_nanos_boundary_and_range_witness :
    0 ≤ printTimeNanos 123 ∧ printTimeNanos 123 < 1000000000 :=
  fraction_nanos_boundary_and_range.2.2 123 (by norm_num)

/-- Claim C7: encoding a request is total and always yields exactly 48
bytes; for any settings byte the buffer is that byte followed by 47 zero
bytes; and multi-byte fields are serialized big-endian, witnessed by the
field value 0x01020304 appearing as the byte sequence 1, 2, 3, 4. -/
theorem encode_request_layout :
    (∀ s : ℕ, (encodeRequest s).length = 48) ∧
    (∀ s : ℕ, s < 256 → encodeRequest s = s :: List.replicate 47 0) ∧
    encodePacket ⟨0, 0, 0, 0, 16909060, 0, 0, 0, 0, 0, 0, 0, 0, 0, 0⟩
      = [0, 0, 0, 0, 1, 2, 3, 4] ++ List.replicate 40 0 := by
  refine ⟨fun s => rfl, fun s hs => ?_, by decide⟩
  have h : encodeRequest s = s % 256 :: List.replicate 47 0 := by
    show encodePacket (requestPacket s) = _
    simp only [encodePacket, requestPacket, u32be, int8Byte, List.cons_append,
      List.nil_append]
    norm_num
    decide
  rw [h, Nat.mod_eq_of_lt hs]

/-- Claim C7 witness: the layout at the settings byte 0x1B that main uses. -/
theorem encode_request_layout_witness :
    encodeRequest 27 = 27 :: List.replicate 47 0 :=
  encode_request_layout.2.1 27 (by norm_num)

/-- Claim C8 counterexample: the deadline is the hard-coded constant 5, not
any caller-supplied timeout; when SetDeadline fails the program aborts via
log.Fatal rather than failing with a ChannelSetupError value, and that abort
is the very same outcome as when no reply arrives — no Timeout value exists
either; a reply arriving at 6 seconds, well before a caller-envisioned
10-second timeout would expire, is nonetheless aborted, while one at 4
seconds is reported, pinning the fixed 5-second deadline. -/
theorem main_deadline_hardcoded_counterexample :
    mainDeadlineSeconds = 5 ∧
    runMain ⟨false, true, none⟩ 0 0 = .fatal ∧
    runMain ⟨false, true, none⟩ 0 0 = runMain ⟨true, true, none⟩ 0 0 ∧
    runMain ⟨true, true, some (6, List.replicate 48 0)⟩ 0 0 = .fatal ∧
    (6 : ℚ) < 10 ∧
    runMain ⟨true, true, some (4, List.replicate 48 0)⟩ 0 0 ≠ .fatal := by
  refine ⟨rfl, rfl, rfl, ?_, by norm_num, ?_⟩
  · unfold runMain mainDeadlineSeconds
    dsimp only
    rw [if_neg (show ¬(6 : ℚ) ≤ 5 by norm_num)]
    rfl
  · unfold runMain mainDeadlineSeconds
    dsimp only
    rw [if_pos (show (4 : ℚ) ≤ 5 by norm_num)]
    intro h
    exact MainOutcome.noConfusion h

/-- Claim C8 (amended): the program applies the hard-coded 5-second deadline
of sntp.go line 78, with no caller-supplied timeout; if setting the deadline
fails, or no reply ever arrives, or the reply arrives only after the
5-second deadline, the run aborts via log.Fatal with no result and no
distinct error value. -/
theorem main_deadline_behavior :
    ∀ ch : Channel, ∀ t1 t4 : ℚ,
      (ch.deadlineOk = false → runMain ch t1 t4 = .fatal) ∧
      (ch.replyAt = none → runMain ch t1 t4 = .fatal) ∧
      (∀ arrival : ℚ, ∀ buf : List ℕ, ch.replyAt = some (arrival, buf) →
        mainDeadlineSeconds < arrival → runMain ch t1 t4 = .fatal) := by
  intro ch t1 t4
  rcases ch with ⟨dok, sok, rep⟩
  refine ⟨?_, ?_, ?_⟩
  · intro h
    dsimp only at h
    subst h
    rfl
  · intro h
    dsimp only at h
    subst h
    unfold runMain
    cases dok <;> cases sok <;> rfl
  · intro arrival buf h hlt
    dsimp only at h
    subst h
    unfold runMain
    cases dok
    · rfl
    · cases sok
      · rfl
      · dsimp only
        rw [if_neg (not_le.mpr hlt)]
        rfl

/-- Claim C8 witness: the fatal abort at a failed SetDeadline, at a channel
that never replies, and at a reply arriving after the 5-second deadline. -/
theorem main_deadline_behavior_witness :
    runMain ⟨false, true, none⟩ 0 0 = .fatal ∧
    runMain ⟨true, true, none⟩ 0 0 = .fatal ∧
    runMain ⟨true, true, some (6, List.replicate 48 0)⟩ 0 0 = .fatal :=
  ⟨(main_deadline_behavior ⟨false, true, none⟩ 0 0).1 rfl,
   (main_deadline_behavior ⟨true, true, none⟩ 0 0).2.1 rfl,
   (main_deadline_behavior ⟨true, true, some (6, List.replicate 48 0)⟩ 0 0).2.2
     6 (List.replicate 48 0) rfl (by norm_num [mainDeadlineSeconds])⟩

/-- Claim C9 counterexample: the pair (epochSeconds = 2085978496,
nanoseconds = 0) satisfies the claim's hypotheses, yet its NTP seconds
value 2085978496 + 2208988800 = 2 ^ 32 wraps to 0 in the 32-bit field, and
decoding back yields -2208988800, off by 2 ^ 32 seconds, far more than one
nanosecond. -/
theorem timestamp_roundtrip_era_wrap_counterexample :
    localTimeToTimestamp 2085978496 0 = (0, 0) ∧
    printTime (localTimeToTimestamp 2085978496 0).1
      (localTimeToTimestamp 2085978496 0).2 = (-2208988800, 0) ∧
    (-2208988800 : ℤ) ≠ 2085978496 ∧
    1 < ((-2208988800 : ℤ) - 2085978496).natAbs * 1000000000 := by
  refine ⟨by decide, by decide, by decide, by decide⟩

/-- Claim C9 (amended): for every pair with nanoseconds in [0, 10 ^ 9) and
-2208988800 <= epochSeconds < 2085978496 (so the NTP seconds fit the 32-bit
field), converting to the NTP fixed-point representation and back
reproduces the pair to within one nanosecond: the seconds are reproduced
exactly and the nanoseconds are reproduced to within 1. -/
theorem timestamp_roundtrip_within_one_nanosecond :
    ∀ es : ℤ, ∀ ns : ℕ, -2208988800 ≤ es → es < 2085978496 → ns < 1000000000 →
      (printTime (localTimeToTimestamp es ns).1 (localTimeToTimestamp es ns).2).1
        = es ∧
      (printTime (localTimeToTimestamp es ns).1 (localTimeToTimestamp es ns).2).2
        ≤ (ns : ℤ) ∧
      (ns : ℤ) - 1
        ≤ (printTime (localTimeToTimestamp es ns).1 (localTimeToTimestamp es ns).2).2 := by
  intro es ns h1 h2 h3
  unfold localTimeToTimestamp printTime
  dsimp only
  have hsec : (es + 2208988800).toNat % 2 ^ 32 = (es + 2208988800).toNat :=
    Nat.mod_eq_of_lt (by omega)
  have hf : ns * 2 ^ 32 / 1000000000 < 2 ^ 32 :=
    Nat.div_lt_of_lt_mul (by omega)
  rw [hsec, printTimeSecs_eq _ (by omega), printTimeNanos_eq _ hf]
  refine ⟨by omega, by omega, by omega⟩

/-- Claim C9 witness: the round trip at the Unix epoch itself. -/
theorem timestamp_roundtrip_within_one_nanosecond_witness :
    (printTime (localTimeToTimestamp 0 0).1 (localTimeToTimestamp 0 0).2).1 = 0 ∧
    (printTime (localTimeToTimestamp 0 0).1 (localTimeToTimestamp 0 0).2).2
      ≤ ((0 : ℕ) : ℤ) ∧
    ((0 : ℕ) : ℤ) - 1
      ≤ (printTime (localTimeToTimestamp 0 0).1 (localTimeToTimestamp 0 0).2).2 :=
  timestamp_roundtrip_within_one_nanosecond 0 0 (by norm_num) (by norm_num) (by norm_num)

/-- Claim C10: the double-precision route of the seconds conversion is
exact: any uint32 value rounds to itself, and the one rounded subtraction
returns exactly the integer difference with 2208988800, negative results
included; and the int64 product fraction * 10 ^ 9 stays below 2 ^ 63, so
the two's-complement wrap leaves it unchanged. -/
theorem float64_route_exact_and_product_in_range :
    (∀ s : ℕ, s < 2 ^ 32 → ∀ rs rd : ℚ, RoundsTo (s : ℚ) rs →
      RoundsTo (rs - 2208988800) rd →
      rs = (s : ℚ) ∧ rd = (s : ℚ) - 2208988800 ∧
      printTimeSecs s = (s : ℤ) - 2208988800) ∧
    (∀ f : ℕ, f < 2 ^ 32 →
      wrapInt64 ((f : ℤ) * 1000000000) = (f : ℤ) * 1000000000 ∧
      (f : ℤ) * 1000000000 < 2 ^ 63) := by
  constructor
  · intro s hs rs rd hrs hrd
    have hsq : ((s : ℤ) : ℚ) = (s : ℚ) := by push_cast; ring
    have h1 : F64Rep (s : ℚ) := by
      rw [← hsq]
      exact F64Rep_intCast (s : ℤ) (by rw [abs_le]; omega)
    have hrs2 : rs = (s : ℚ) := roundsTo_eq_self _ _ h1 hrs
    subst hrs2
    have hdq : ((s : ℚ) - 2208988800) = (((s : ℤ) - 2208988800 : ℤ) : ℚ) := by
      push_cast; ring
    have h2 : F64Rep ((s : ℚ) - 2208988800) := by
      rw [hdq]
      exact F64Rep_intCast _ (by rw [abs_le]; omega)
    exact ⟨rfl, roundsTo_eq_self _ _ h2 hrd, printTimeSecs_eq s hs⟩
  · intro f hf
    exact ⟨wrapInt64_eq_self _ (by positivity) (by omega), by omega⟩

/-- Claim C10 witness: the rounding chain at s = 0 with the exact values as
the rounded results, and the product bound at the maximal fraction. -/
theorem float64_route_exact_and_product_in_range_witness :
    ((0 : ℚ) = ((0 : ℕ) : ℚ) ∧
      ((0 : ℚ) - 2208988800) = ((0 : ℕ) : ℚ) - 2208988800 ∧
      printTimeSecs 0 = ((0 : ℕ) : ℤ) - 2208988800) ∧
    (wrapInt64 (((4294967295 : ℕ) : ℤ) * 1000000000)
        = ((4294967295 : ℕ) : ℤ) * 1000000000 ∧
      ((4294967295 : ℕ) : ℤ) * 1000000000 < 2 ^ 63) := by
  have ha : RoundsTo (((0 : ℕ) : ℚ)) 0 :=
    ⟨⟨0, 0, by norm_num, by norm_num⟩,
     fun r2 _ => by simp⟩
  have hb : RoundsTo ((0 : ℚ) - 2208988800) ((0 : ℚ) - 2208988800) :=
    ⟨⟨-2208988800, 0, by norm_num, by norm_num⟩,
     fun r2 _ => by simp⟩
  exact ⟨float64_route_exact_and_product_in_range.1 0 (by norm_num) 0
      ((0 : ℚ) - 2208988800) ha hb,
    float64_route_exact_and_product_in_range.2 4294967295 (by norm_num)⟩

end Sntp
